import Mathlib

/-!
Verification of the bedrock-proxy format-conversion core.

This file gives a shallow embedding, in Lean, of the request/response
conversion engine of the proxy (src/lambda_proxy/src/bedrock_format_converter.py),
the streaming aggregation and error translation of the request handler
(src/lambda_proxy/src/request_handler.py), the backend-error construction of
the Bedrock client (src/lambda_proxy/src/bedrock_client.py), and the
authentication layer (src/lambda_proxy/src/auth.py), and proves or refutes
the specified properties of those operations.

Two renderings are used.

The typed layer models the wire data at the schema the code itself expects
(strings in string-typed fields, lists in list-typed fields), translating
each Python function clause by clause.  Python conventions are rendered as
follows: a dict field that may be absent becomes an Option; scalar fields
whose absence the code collapses via dict.get defaults are stored already
defaulted; numeric JSON parameter values (temperature, top_p, ...) are only
copied verbatim by the code, never computed with, and are carried as Int.

The dynamic layer (PyVal, used for the never-fails reverse conversion) keeps
Python's dynamic typing: values are a closed sum of None / bool / int / str /
list / dict, operations that raise in Python return an error in an Except,
and the try/except of the source becomes an explicit catch.
-/

namespace BedrockProxy

/-! ## Client-protocol (OpenAI-format) request data -/

/-- One typed content block of a client message: the code dispatches on the
declared type tag, handling text and image_url and silently dropping every
other tag (`_convert_user_message_openai_to_bedrock`). -/
inductive OABlock
  | text (s : String)
  | imageUrl (url : String)
  | otherTag
deriving DecidableEq, Repr

/-- The value of a message's content key: a plain string, a list of typed
blocks, or JSON null (Python None). -/
inductive OAContent
  | str (s : String)
  | blocks (bs : List OABlock)
  | null
deriving DecidableEq, Repr

/-- Python truthiness of a content value: non-empty string or non-empty list. -/
def contentTruthyVal : OAContent → Bool
  | .str s => s ≠ ""
  | .blocks bs => bs ≠ []
  | .null => false

/-- Python truthiness of `message.get('content')` (absent key gives None). -/
def contentTruthy : Option OAContent → Bool
  | some c => contentTruthyVal c
  | none => false

structure OAFunctionCall where
  name : String
  arguments : String
deriving DecidableEq, Repr

structure OAToolCall where
  id : String
  callType : String
  function : OAFunctionCall
deriving DecidableEq, Repr

/-- A client-protocol chat message.  content is none when the key is absent;
tool_calls defaults to the empty list (`message.get('tool_calls', [])`). -/
structure OAMessage where
  role : String
  content : Option OAContent
  tool_calls : List OAToolCall
deriving DecidableEq, Repr

structure OAToolDef where
  defType : String
  name : String
  description : String
  parameters : String
deriving DecidableEq, Repr

/-- The tool_choice directive: the code compares against the strings auto and
required, accepts a function-typed dict, and leaves the backend field unset
for any other truthy value (`_convert_tools_openai_to_bedrock`). -/
inductive OAToolChoice
  | auto
  | required
  | function (name : String)
  | otherVal
deriving DecidableEq, Repr

/-- A stop value: the code accepts a single string or a list of strings and
ignores any other shape (`_convert_inference_config_openai_to_bedrock`). -/
inductive StopVal
  | str (s : String)
  | list (ss : List String)
deriving DecidableEq, Repr

/-- A client-protocol chat request; none marks an absent key. -/
structure OARequest where
  model : Option String
  messages : Option (List OAMessage)
  temperature : Option Int
  max_tokens : Option Int
  top_p : Option Int
  stop : Option StopVal
  stream : Bool
  tools : Option (List OAToolDef)
  tool_choice : Option OAToolChoice
deriving DecidableEq, Repr

/-! ## Backend-protocol (Bedrock-format) request data -/

structure BrImage where
  format : String
  /-- The base64 payload of the data URL.  The source decodes it with
  b64decode; the byte-level decoding is not load-bearing for any claim and the
  payload is kept as the undecoded base64 text. -/
  bytesB64 : String
deriving DecidableEq, Repr

/-- A backend-request content block.  The text constructor carries a raw
content value because `_convert_assistant_message_openai_to_bedrock` stores
the assistant content value under the text key verbatim, whatever its shape;
string-typed text from the user path is wrapped as OAContent.str. -/
inductive BrBlock
  | text (c : OAContent)
  | image (img : BrImage)
  | toolUse (toolUseId : String) (name : String) (input : String)
deriving DecidableEq, Repr

structure BrMessage where
  role : String
  content : List BrBlock
deriving DecidableEq, Repr

/-- One entry of the backend request's system field (`{'text': content}`);
the stored value is the raw content of the originating system message. -/
structure SystemEntry where
  text : OAContent
deriving DecidableEq, Repr

structure InferenceConfig where
  temperature : Option Int
  maxTokens : Option Int
  topP : Option Int
  stopSequences : Option (List String)
deriving DecidableEq, Repr

structure BrToolSpec where
  name : String
  description : String
  inputSchema : String
deriving DecidableEq, Repr

inductive BrToolChoice
  | auto
  | any
  | tool (name : String)
deriving DecidableEq, Repr

structure BrToolConfig where
  tools : List BrToolSpec
  toolChoice : Option BrToolChoice
deriving DecidableEq, Repr

structure BedrockRequest where
  modelId : String
  messages : List BrMessage
  inferenceConfig : Option InferenceConfig
  system : Option (List SystemEntry)
  toolConfig : Option BrToolConfig
deriving DecidableEq, Repr

/-! ## BedrockFormatConverter: request direction -/

/-- The default model mapping table built in BedrockFormatConverter.__init__. -/
def default_model_mappings : List (String × String) :=
  [ ("gpt-4o-mini", "amazon.nova-lite-v1:0"),
    ("gpt-4o", "amazon.nova-pro-v1:0"),
    ("gpt-3.5-turbo", "amazon.nova-micro-v1:0"),
    ("amazon.nova-lite-v1:0", "amazon.nova-lite-v1:0"),
    ("amazon.nova-pro-v1:0", "amazon.nova-pro-v1:0"),
    ("amazon.nova-micro-v1:0", "amazon.nova-micro-v1:0") ]

/-- convert_model_name: `self.model_mappings.get(openai_model, openai_model)`. -/
def convert_model_name (mappings : List (String × String)) (openai_model : String) : String :=
  match mappings.lookup openai_model with
  | some bedrock_model => bedrock_model
  | none => openai_model

/-- The MIME-subtype table of `_convert_image_openai_to_bedrock`. -/
def image_format_mapping : List (String × String) :=
  [ ("image/jpeg", "jpeg"), ("image/jpg", "jpeg"), ("image/png", "png"),
    ("image/webp", "webp"), ("image/gif", "gif") ]

/-- Whether the first list is an initial segment of the second. -/
def leadMatches : List Char → List Char → Bool
  | [], _ => true
  | _ :: _, [] => false
  | a :: as, b :: bs => a == b && leadMatches as bs

def strContainsAux (p : List Char) : List Char → Bool
  | [] => leadMatches p []
  | c :: rest => leadMatches p (c :: rest) || strContainsAux p rest

/-- Substring test, modelling Python's `pat in s` on strings. -/
def strContains (s pat : String) : Bool :=
  strContainsAux pat.toList s.toList

/-- Everything after the first occurrence of sep in s (Python
`s.split(sep, 1)[1]`), or the empty string when sep does not occur. -/
def afterFirst (sep s : String) : String :=
  match s.splitOn sep with
  | _ :: rest => String.intercalate sep rest
  | [] => ""

/-- _convert_image_openai_to_bedrock on the url of an image_url block: only
data URLs with an embedded base64 payload convert; the format comes from the
MIME subtype with jpeg as the default; any other URL yields None (block
dropped).  A b64decode failure in the source is caught and also yields None;
the payload is kept undecoded here, so that branch does not arise. -/
def convert_image_openai_to_bedrock (url : String) : Option BrImage :=
  if url.startsWith "data:" then
    if strContains url ";base64," then
      let header := (url.splitOn ";base64,").headD ""
      let data := afterFirst ";base64," url
      let media_type := afterFirst ":" header
      let fmt := (image_format_mapping.lookup media_type.toLower).getD "jpeg"
      some { format := fmt, bytesB64 := data }
    else
      none
  else
    none

/-- _convert_user_message_openai_to_bedrock, yielding the content-block list.
A string becomes one text block; a list maps text blocks and converting image
blocks, dropping failed images and unknown tags; any other value v becomes a
single text block holding str(v) (for content None/null that is the string
None). -/
def convert_user_message_openai_to_bedrock (content : Option OAContent) : List BrBlock :=
  match content with
  | some (.str s) => [.text (.str s)]
  | some (.blocks bs) =>
      bs.filterMap fun b =>
        match b with
        | .text s => some (.text (.str s))
        | .imageUrl url => (convert_image_openai_to_bedrock url).map .image
        | .otherTag => none
  | some .null => [.text (.str "None")]
  | none => [.text (.str "None")]

/-- _convert_assistant_message_openai_to_bedrock: a truthy content value is
stored verbatim as a text block, then every function-typed tool call becomes
a toolUse block carrying id, name and arguments. -/
def convert_assistant_message_openai_to_bedrock (m : OAMessage) : List BrBlock :=
  (if contentTruthy m.content then [.text (m.content.getD .null)] else [])
    ++ m.tool_calls.filterMap fun tc =>
        if tc.callType == "function" then
          some (.toolUse tc.id tc.function.name tc.function.arguments)
        else
          none

/-- _convert_messages_openai_to_bedrock: system messages are skipped (they are
handled separately), user and assistant messages convert with their role
attached, and any other role is dropped with a logged warning.  The source's
final `if bedrock_message:` guard is always true (both converters return a
non-empty dict) and is folded away. -/
def convert_messages_openai_to_bedrock : List OAMessage → List BrMessage
  | [] => []
  | m :: rest =>
      if m.role == "system" then
        convert_messages_openai_to_bedrock rest
      else if m.role == "user" then
        { role := "user", content := convert_user_message_openai_to_bedrock m.content }
          :: convert_messages_openai_to_bedrock rest
      else if m.role == "assistant" then
        { role := "assistant", content := convert_assistant_message_openai_to_bedrock m }
          :: convert_messages_openai_to_bedrock rest
      else
        convert_messages_openai_to_bedrock rest

/-- _extract_system_messages: walks the client messages in order and collects
`{'text': content}` for each system-role message whose content is truthy
(`if content:`); a system message with empty or missing content is skipped. -/
def extract_system_messages : List OAMessage → List SystemEntry
  | [] => []
  | m :: rest =>
      if m.role == "system" && contentTruthy m.content then
        { text := m.content.getD (.str "") } :: extract_system_messages rest
      else
        extract_system_messages rest

/-- _convert_inference_config_openai_to_bedrock: direct field renames plus
normalization of stop into the list-only stopSequences. -/
def convert_inference_config_openai_to_bedrock (req : OARequest) : InferenceConfig :=
  { temperature := req.temperature
    maxTokens := req.max_tokens
    topP := req.top_p
    stopSequences :=
      match req.stop with
      | some (.str s) => some [s]
      | some (.list ss) => some ss
      | none => none }

/-- Truthiness of the config dict built by
_convert_inference_config_openai_to_bedrock: it is empty iff no key was set. -/
def inferenceConfigIsEmpty (c : InferenceConfig) : Bool :=
  c.temperature.isNone && c.maxTokens.isNone && c.topP.isNone && c.stopSequences.isNone

/-- _convert_tools_openai_to_bedrock: each function-typed tool becomes a
toolSpec; the tool_choice directive maps auto to auto, required to any, and a
function-typed dict to a named tool; any other truthy value leaves toolChoice
unset. -/
def convert_tools_openai_to_bedrock (tools : List OAToolDef) (tool_choice : Option OAToolChoice) :
    BrToolConfig :=
  { tools := tools.filterMap fun t =>
      if t.defType == "function" then
        some { name := t.name, description := t.description, inputSchema := t.parameters }
      else
        none
    toolChoice :=
      match tool_choice with
      | some .auto => some .auto
      | some .required => some .any
      | some (.function n) => some (.tool n)
      | some .otherVal => none
      | none => none }

/-- openai_to_bedrock_request.  The only failing branch of the source is the
`if not openai_model:` check (absent or falsy model); every other field
degrades gracefully.  In particular an absent messages key defaults to the
empty list (`openai_request.get('messages', [])`) and converts to an empty
backend message list without error.  The source's outer except re-raises any
exception as `ValueError('Request conversion failed: ...')`; the error string
carried here is the inner message. -/
def openai_to_bedrock_request (mappings : List (String × String)) (req : OARequest) :
    Except String BedrockRequest :=
  match req.model with
  | none => .error "Missing model in OpenAI request"
  | some openai_model =>
    if openai_model == "" then .error "Missing model in OpenAI request"
    else
      let bedrock_model := convert_model_name mappings openai_model
      let openai_messages := req.messages.getD []
      let bedrock_messages := convert_messages_openai_to_bedrock openai_messages
      let cfg := convert_inference_config_openai_to_bedrock req
      let system_messages := extract_system_messages openai_messages
      .ok
        { modelId := bedrock_model
          messages := bedrock_messages
          inferenceConfig := if inferenceConfigIsEmpty cfg then none else some cfg
          system := if system_messages.isEmpty then none else some system_messages
          toolConfig :=
            match req.tools with
            | some ts =>
                if ts.isEmpty then none
                else some (convert_tools_openai_to_bedrock ts req.tool_choice)
            | none => none }

/-! ## BedrockFormatConverter: response direction (typed layer) -/

/-- Backend usage counters; none marks an absent key. -/
structure BrUsage where
  inputTokens : Option Int
  outputTokens : Option Int
  totalTokens : Option Int
deriving DecidableEq, Repr

structure OAUsage where
  prompt_tokens : Int
  completion_tokens : Int
  total_tokens : Int
deriving DecidableEq, Repr

/-- _convert_bedrock_usage_to_openai: a direct field rename with zero
defaults; note that total_tokens is copied from the backend totalTokens
verbatim, it is not recomputed as a sum. -/
def convert_bedrock_usage_to_openai (usage : BrUsage) : OAUsage :=
  { prompt_tokens := usage.inputTokens.getD 0
    completion_tokens := usage.outputTokens.getD 0
    total_tokens := usage.totalTokens.getD 0 }

/-- The stop-reason table of _convert_bedrock_stop_reason. -/
def stop_reason_mapping : List (String × String) :=
  [ ("end_turn", "stop"), ("tool_use", "tool_calls"), ("max_tokens", "length"),
    ("stop_sequence", "stop"), ("content_filtered", "content_filter") ]

/-- _convert_bedrock_stop_reason: table lookup with default stop. -/
def convert_bedrock_stop_reason (stop_reason : String) : String :=
  (stop_reason_mapping.lookup stop_reason).getD "stop"

/-- A content block of the backend response message: the code dispatches on
key presence, text first, then toolUse, skipping blocks with neither key
(`_convert_bedrock_message_to_openai_choice`). -/
inductive BrOutBlock
  | text (s : String)
  | toolUse (toolUseId : String) (name : String) (input : String)
  | otherBlock
deriving DecidableEq, Repr

structure OAToolCallOut where
  id : String
  callType : String
  function : OAFunctionCall
deriving DecidableEq, Repr

/-- The assembled assistant message of a choice; tool_calls is none when the
source omits the key entirely (no tool-use blocks). -/
structure OAAssistantMessage where
  role : String
  content : Option String
  tool_calls : Option (List OAToolCallOut)
deriving DecidableEq, Repr

structure OAChoice where
  index : Nat
  message : OAAssistantMessage
  finish_reason : String
deriving DecidableEq, Repr

/-- The text_parts list accumulated by the block loop, in block order. -/
def collectTextParts : List BrOutBlock → List String
  | [] => []
  | .text s :: rest => s :: collectTextParts rest
  | .toolUse _ _ _ :: rest => collectTextParts rest
  | .otherBlock :: rest => collectTextParts rest

/-- The tool_calls list accumulated by the block loop, in block order; the
tool input is stringified by the source (str(...)), carried here verbatim. -/
def collectToolCalls : List BrOutBlock → List OAToolCallOut
  | [] => []
  | .text _ :: rest => collectToolCalls rest
  | .toolUse i n inp :: rest =>
      { id := i, callType := "function", function := { name := n, arguments := inp } }
        :: collectToolCalls rest
  | .otherBlock :: rest => collectToolCalls rest

/-- _convert_bedrock_message_to_openai_choice on the content-block list of the
backend message: content is the newline join of the text parts, or None when
there are none; tool_calls appears only when non-empty; a single choice of
index 0 with the mapped finish reason. -/
def convert_bedrock_message_to_openai_choice (blocks : List BrOutBlock) (stop_reason : String) :
    List OAChoice :=
  let text_parts := collectTextParts blocks
  let tool_calls := collectToolCalls blocks
  [ { index := 0
      message :=
        { role := "assistant"
          content := if text_parts.isEmpty then none else some (String.intercalate "\n" text_parts)
          tool_calls := if tool_calls.isEmpty then none else some tool_calls }
      finish_reason := convert_bedrock_stop_reason stop_reason } ]

/-! ## Streaming: converse_stream events, chunk conversion, aggregation -/

/-- One chunk as yielded by BedrockClient.converse_stream: the six Bedrock
stream event kinds, re-tagged with snake_case type strings.  Only the payload
fields that convert_streaming_chunk and the handler read are carried: the
delta text when the delta dict has a text key, the stopReason when present,
and the usage dict when the metadata data carries a usage key. -/
inductive BrStreamChunk
  | message_start
  | content_block_start
  | content_block_delta (text : Option String)
  | content_block_stop
  | message_stop (stopReason : Option String)
  | metadata (usage : Option BrUsage)
deriving DecidableEq, Repr

/-- Python truthiness of the usage dict carried by a metadata event.  The
model keeps only the three token fields, so the dict is non-empty exactly
when one of them is present. -/
def brUsageTruthy (u : BrUsage) : Bool :=
  u.inputTokens.isSome || u.outputTokens.isSome || u.totalTokens.isSome

structure OADelta where
  role : Option String
  content : Option String
deriving DecidableEq, Repr

structure OAChunkChoice where
  index : Nat
  delta : OADelta
  finish_reason : Option String
deriving DecidableEq, Repr

/-- A converted client-protocol streaming chunk (id and created timestamps,
being clock-derived, are not modelled). -/
structure OAStreamChunk where
  object : String
  model : String
  choices : List OAChunkChoice
  usage : Option OAUsage
deriving DecidableEq, Repr

/-- `original_model or 'gpt-4o-mini'`: None and the empty string are falsy. -/
def modelOrDefault : Option String → String
  | some s => if s == "" then "gpt-4o-mini" else s
  | none => "gpt-4o-mini"

/-- convert_streaming_chunk: a delta with text becomes a content delta; a
message start announces the assistant role; a message stop carries the mapped
finish reason (stopReason defaulting to the string stop, which the table also
maps to stop); a metadata event with truthy usage attaches converted usage;
every other event yields an empty-choices chunk. -/
def convert_streaming_chunk (chunk : BrStreamChunk) (original_model : Option String) :
    OAStreamChunk :=
  let base : OAStreamChunk :=
    { object := "chat.completion.chunk", model := modelOrDefault original_model,
      choices := [], usage := none }
  match chunk with
  | .content_block_delta (some txt) =>
      { base with choices := [{ index := 0, delta := { role := none, content := some txt },
                                finish_reason := none }] }
  | .content_block_delta none => base
  | .message_start =>
      { base with choices := [{ index := 0, delta := { role := some "assistant", content := none },
                                finish_reason := none }] }
  | .message_stop sr =>
      { base with choices := [{ index := 0, delta := { role := none, content := none },
                                finish_reason := some (convert_bedrock_stop_reason (sr.getD "stop")) }] }
  | .metadata (some u) =>
      if brUsageTruthy u then
        { base with usage := some (convert_bedrock_usage_to_openai u) }
      else
        base
  | .metadata none => base
  | .content_block_start => base
  | .content_block_stop => base

/-- A choice of the synthesized final response.  The handler relabels only
choices[0] from delta to message; any further choices would stay delta-shaped,
so both shapes are representable. -/
inductive FinalChoice
  | messageChoice (index : Nat) (message : OADelta) (finish_reason : Option String)
  | deltaChoice (index : Nat) (delta : OADelta) (finish_reason : Option String)
deriving DecidableEq, Repr

structure FinalResponse where
  object : String
  model : String
  choices : List FinalChoice
  usage : Option OAUsage
deriving DecidableEq, Repr

/-- The delta-to-message rewrite of _handle_streaming_response applied to the
chosen final chunk: when choices is non-empty, choices[0] has its delta
relabeled as message.  The source line
`choice['finish_reason'] = choice.get('finish_reason', 'stop')` never changes
anything, because every converted chunk choice carries the finish_reason key
(possibly with value None), and dict.get returns that stored value. -/
def finalize_chunk (ch : OAStreamChunk) : FinalResponse :=
  { object := ch.object
    model := ch.model
    choices :=
      match ch.choices with
      | [] => []
      | c :: rest =>
          .messageChoice c.index c.delta c.finish_reason
            :: rest.map (fun r => .deltaChoice r.index r.delta r.finish_reason)
    usage := ch.usage }

/-- The fallback response of _handle_streaming_response for an empty chunk
list: a placeholder assistant message, finish reason stop, zeroed usage. -/
def fallback_stream_response (original_model : String) : FinalResponse :=
  { object := "chat.completion"
    model := original_model
    choices := [.messageChoice 0
      { role := some "assistant", content := some "Stream completed but no content received." }
      (some "stop")]
    usage := some { prompt_tokens := 0, completion_tokens := 0, total_tokens := 0 } }

/-- The response-assembly core of _handle_streaming_response: every backend
chunk is converted in order, and the final response is built from the LAST
converted chunk, whatever its kind; an empty sequence yields the fallback. -/
def handle_streaming_response (chunks : List BrStreamChunk) (original_model : String) :
    FinalResponse :=
  let streaming_chunks := chunks.map fun c => convert_streaming_chunk c (some original_model)
  match streaming_chunks.getLast? with
  | some final_chunk => finalize_chunk final_chunk
  | none => fallback_stream_response original_model

/-- The total_tokens accumulator of _handle_streaming_response: for every raw
chunk whose data carries a usage key, usage.get('totalTokens', 0) is added.
This value feeds only the log_bedrock_api_call line, never the response. -/
def streamed_total_tokens : List BrStreamChunk → Int
  | [] => 0
  | .metadata (some u) :: rest => u.totalTokens.getD 0 + streamed_total_tokens rest
  | .metadata none :: rest => streamed_total_tokens rest
  | .message_start :: rest => streamed_total_tokens rest
  | .content_block_start :: rest => streamed_total_tokens rest
  | .content_block_delta _ :: rest => streamed_total_tokens rest
  | .content_block_stop :: rest => streamed_total_tokens rest
  | .message_stop _ :: rest => streamed_total_tokens rest

/-! ## Backend-error construction (bedrock_client) and translation (request_handler) -/

/-- BedrockAPIError: message, optional HTTP status, optional error-type tag. -/
structure BedrockAPIError where
  message : String
  status_code : Option Int
  error_type : Option String
deriving DecidableEq, Repr

/-- The AWS-error-code table of BedrockClient.converse. -/
def bedrock_error_type_mapping : List (String × String) :=
  [ ("ValidationException", "invalid_request_error"),
    ("AccessDeniedException", "authentication_error"),
    ("ThrottlingException", "rate_limit_error"),
    ("ModelNotReadyException", "model_error"),
    ("InternalServerException", "server_error"),
    ("ServiceQuotaExceededException", "quota_exceeded_error") ]

/-- The BedrockAPIError raised by BedrockClient.converse for a botocore
ClientError: the AWS error code maps through the table (default api_error)
and the HTTP status of the AWS response is carried along. -/
def converse_client_error (error_code : String) (error_message : String) (http_status : Int) :
    BedrockAPIError :=
  { message := error_message
    status_code := some http_status
    error_type := some ((bedrock_error_type_mapping.lookup error_code).getD "api_error") }

/-- The error_mapping table of RequestHandler._handle_bedrock_error. -/
def handler_error_mapping : List (String × (Int × String)) :=
  [ ("invalid_request_error", (400, "invalid_request_error")),
    ("authentication_error", (401, "authentication_error")),
    ("rate_limit_error", (429, "rate_limit_error")),
    ("model_error", (503, "model_error")),
    ("server_error", (500, "server_error")),
    ("quota_exceeded_error", (429, "rate_limit_error")),
    ("connection_error", (503, "connection_error")),
    ("models_error", (503, "server_error")) ]

/-- The client-visible summary of a translated backend error. -/
structure ErrorResponseSummary where
  statusCode : Int
  errorType : String
  message : String
deriving DecidableEq, Repr

/-- _handle_bedrock_error: the error type resolves through the table with
default (500, server_error); then `if error.status_code:` overrides the
table's status with the status carried by the error whenever that status is
present and non-zero (Python truthiness). -/
def handle_bedrock_error (e : BedrockAPIError) : ErrorResponseSummary :=
  let pair : Int × String :=
    match e.error_type with
    | some t => (handler_error_mapping.lookup t).getD (500, "server_error")
    | none => (500, "server_error")
  let status : Int :=
    match e.status_code with
    | some sc => if sc == 0 then pair.1 else sc
    | none => pair.1
  { statusCode := status, errorType := pair.2, message := e.message }

/-! ## Authentication (auth.py) and the chat-completion pipeline prefix -/

structure AuthResult where
  authenticated : Bool
  user_id : Option String
  permissions : List String
  error_message : Option String
deriving DecidableEq, Repr

/-- The require_auth flag as set by AuthManager.__init__:
`self.require_auth = False  # Set to True for production`. -/
def auth_manager_default_require_auth : Bool := false

/-- The decoded claims of a JWT, as read by _authenticate_jwt. -/
structure JwtClaims where
  sub : Option String
  user_id : Option String
  permissions : List String
  exp : Option Int
deriving DecidableEq, Repr

/-- _is_jwt_token: three dot-separated parts. -/
def is_jwt_token (token : String) : Bool :=
  (token.splitOn ".").length == 3

/-- str.isalnum over the key with dashes and underscores removed, as in
_validate_api_key_format (ASCII approximation of Python isalnum). -/
def apiKeyAlnum (api_key : String) : Bool :=
  let stripped := api_key.toList.filter fun c => c ≠ '-' && c ≠ '_'
  !stripped.isEmpty && stripped.all Char.isAlphanum

/-- _validate_api_key_format: at least 20 characters and either a known
prefixed pattern or a long alphanumeric key. -/
def validate_api_key_format (api_key : String) : Bool :=
  if api_key == "" || api_key.length < 20 then false
  else if api_key.startsWith "sk-" || api_key.startsWith "pk-" || api_key.startsWith "ak-" then true
  else if api_key.length ≥ 32 && apiKeyAlnum api_key then true
  else false

/-- Stands in for the sha256-derived user identifier of
_extract_user_from_api_key / _authenticate_simple_token; the digest itself is
not load-bearing for any claim, only that some identifier is produced. -/
def token_user_id (token : String) : String := token

/-- _authenticate_simple_token: any token of at least 10 characters is
accepted with the two fixed permissions. -/
def authenticate_simple_token (token : String) : AuthResult :=
  if token.length < 10 then
    { authenticated := false, user_id := none, permissions := [],
      error_message := some "Token too short" }
  else
    { authenticated := true, user_id := some (token_user_id token),
      permissions := ["chat:completion", "models:list"], error_message := none }

/-- _authenticate_api_key: format check, then any well-formed key is accepted
with the two fixed permissions. -/
def authenticate_api_key (api_key : String) : AuthResult :=
  if !validate_api_key_format api_key then
    { authenticated := false, user_id := none, permissions := [],
      error_message := some "Invalid API key format" }
  else
    { authenticated := true, user_id := some (token_user_id api_key),
      permissions := ["chat:completion", "models:list"], error_message := none }

/-- _authenticate_jwt.  The external jwt.decode (signature unverified) is a
parameter: none models an InvalidTokenError.  The expiry check
`if exp and exp < time.time()` skips a falsy (zero) exp. -/
def authenticate_jwt (jwtDecode : String → Option JwtClaims) (now : Int) (token : String) :
    AuthResult :=
  match jwtDecode token with
  | none =>
      { authenticated := false, user_id := none, permissions := [],
        error_message := some "Invalid JWT token" }
  | some claims =>
      let expired :=
        match claims.exp with
        | some e => e ≠ 0 && e < now
        | none => false
      if expired then
        { authenticated := false, user_id := none, permissions := [],
          error_message := some "Token expired" }
      else
        { authenticated := true
          user_id := match claims.sub with | some s => some s | none => claims.user_id
          permissions := claims.permissions
          error_message := none }

/-- _authenticate_bearer_token: JWT-shaped tokens go to the JWT path, others
to the simple-token path. -/
def authenticate_bearer_token (jwtDecode : String → Option JwtClaims) (now : Int)
    (token : String) : AuthResult :=
  if is_jwt_token token then authenticate_jwt jwtDecode now token
  else authenticate_simple_token token

/-- The credential-bearing headers of an inbound event (the case-variant
header lookups of auth.py collapsed into one optional value each). -/
structure AuthEvent where
  authorizationHeader : Option String
  apiKeyHeader : Option String
deriving DecidableEq, Repr

/-- The no-credentials failure result of authenticate_request. -/
def no_credentials_result : AuthResult :=
  { authenticated := false, user_id := none, permissions := [],
    error_message := some "No authentication credentials provided" }

/-- authenticate_request: with require_auth false (the constructor default)
EVERY request authenticates as the anonymous user; otherwise a truthy
Bearer-prefixed Authorization header goes to the bearer path, else a truthy
API-key header to the key path, else the request is rejected. -/
def authenticate_request (require_auth : Bool) (jwtDecode : String → Option JwtClaims)
    (now : Int) (ev : AuthEvent) : AuthResult :=
  if !require_auth then
    { authenticated := true, user_id := some "anonymous", permissions := [],
      error_message := none }
  else
    let apiKeyPath : AuthResult :=
      match ev.apiKeyHeader with
      | some k => if k == "" then no_credentials_result else authenticate_api_key k
      | none => no_credentials_result
    match ev.authorizationHeader with
    | some h =>
        if h ≠ "" && h.startsWith "Bearer " then
          authenticate_bearer_token jwtDecode now (h.drop 7)
        else apiKeyPath
    | none => apiKeyPath

/-- authorize_action: trivially true when auth is not required; otherwise an
exact permission, a same-namespace wildcard, or the admin wildcard. -/
def authorize_action (require_auth : Bool) (ar : AuthResult) (action : String) : Bool :=
  if !require_auth then true
  else if !ar.authenticated then false
  else if ar.permissions.contains action then true
  else
    let action_parts := action.splitOn ":"
    if action_parts.length > 1 && ar.permissions.contains (action_parts.headD "" ++ ":*") then
      true
    else
      ar.permissions.contains "admin:*"

/-- The ProxyError produced for an auth failure: 401 authentication_error for
a failed authentication, 403 authorization_error for a failed permission
check (create_auth_error). -/
structure ProxyError where
  message : String
  error_type : String
  status_code : Int
deriving DecidableEq, Repr

def create_auth_error (ar : AuthResult) : ProxyError :=
  if !ar.authenticated then
    { message := ar.error_message.getD "Authentication required",
      error_type := "authentication_error", status_code := 401 }
  else
    { message := "Insufficient permissions",
      error_type := "authorization_error", status_code := 403 }

/-- The outcome of the handle_chat_completion prefix: either an error
response was returned, or control reached the backend invocation with the
converted Bedrock request. -/
inductive ChatOutcome
  | errorResponse (statusCode : Int) (errorType : String) (message : String)
  | backendCall (request : BedrockRequest) (streaming : Bool)
deriving DecidableEq, Repr

def isBackendCall : ChatOutcome → Bool
  | .backendCall _ _ => true
  | .errorResponse _ _ _ => false

/-- An inbound chat-completion event: credentials plus the request body.
body none models a missing body; some none an unparseable JSON body; the
base64/JSON decoding mechanics of _parse_request_body are collapsed. -/
structure ChatEvent where
  auth : AuthEvent
  body : Option (Option OARequest)
deriving Repr

def parse_request_body (ev : ChatEvent) : Option OARequest :=
  match ev.body with
  | some (some r) => some r
  | some none => none
  | none => none

/-- _validate_openai_request: model and messages keys required, messages a
non-empty list of role/content-keyed messages with a known role, and the
optional sampling parameters inside their documented ranges. -/
def validate_openai_request (r : OARequest) : Bool :=
  match r.model with
  | none => false
  | some _ =>
    match r.messages with
    | none => false
    | some msgs =>
      !msgs.isEmpty
        && msgs.all (fun m =>
            (m.role == "system" || m.role == "user" || m.role == "assistant")
              && m.content.isSome)
        && (match r.temperature with | some t => decide (0 ≤ t && t ≤ 2) | none => true)
        && (match r.max_tokens with | some mt => decide (0 < mt) | none => true)
        && (match r.top_p with | some tp => decide (0 < tp && tp ≤ 1) | none => true)

/-- The handle_chat_completion pipeline up to the backend invocation, in
source order: authenticate, authorize chat:completion, parse the body,
validate, convert; each failure short-circuits into an error response (a
raised ProxyError resolves through ErrorHandler._handle_proxy_error to its
own status and type; a conversion ValueError resolves through
_handle_validation_error to 400 validation_error). -/
def handle_chat_completion (require_auth : Bool) (jwtDecode : String → Option JwtClaims)
    (now : Int) (mappings : List (String × String)) (ev : ChatEvent) : ChatOutcome :=
  let auth_result := authenticate_request require_auth jwtDecode now ev.auth
  if !auth_result.authenticated then
    let pe := create_auth_error auth_result
    .errorResponse pe.status_code pe.error_type pe.message
  else if !authorize_action require_auth auth_result "chat:completion" then
    let pe := create_auth_error auth_result
    .errorResponse pe.status_code pe.error_type pe.message
  else
    match parse_request_body ev with
    | none => .errorResponse 400 "validation_error" "Invalid or missing request body"
    | some request_body =>
      if !validate_openai_request request_body then
        .errorResponse 400 "validation_error" "Invalid OpenAI request format"
      else
        match openai_to_bedrock_request mappings request_body with
        | .error msg =>
            .errorResponse 400 "validation_error" ("Request conversion failed: " ++ msg)
        | .ok bedrock_request => .backendCall bedrock_request request_body.stream

/-! ## Dynamic layer: bedrock_to_openai_response over Python-typed values

bedrock_to_openai_response wraps its whole body in try/except and is
documented to never raise; its input is an arbitrary parsed-JSON-shaped
value.  The dynamic layer models such values as a closed sum, renders each
operation that can raise (attribute access on a non-dict, string/list
indexing, joining non-strings, hashing an unhashable key) as an Except
error, and renders the outer except as an explicit catch producing
_create_error_response. -/

/-- A Python value as this code path can see one. -/
inductive PyVal
  | pynone
  | pybool (b : Bool)
  | pyint (n : Int)
  | pystr (s : String)
  | pylist (xs : List PyVal)
  | pydict (kvs : List (String × PyVal))
deriving Repr

/-- Python repr(); quoting uses plain apostrophes.  The exact text is not
load-bearing: it only ever feeds log lines and the explanatory message of a
tool-call argument rendering. -/
def pyRepr : PyVal → String
  | .pynone => "None"
  | .pybool b => if b then "True" else "False"
  | .pyint n => toString n
  | .pystr s => "\x27" ++ s ++ "\x27"
  | .pylist xs => "[" ++ pyReprItems xs ++ "]"
  | .pydict kvs => "\x7b" ++ pyReprEntries kvs ++ "\x7d"
where
  pyReprItems : List PyVal → String
    | [] => ""
    | [x] => pyRepr x
    | x :: xs => pyRepr x ++ ", " ++ pyReprItems xs
  pyReprEntries : List (String × PyVal) → String
    | [] => ""
    | [(k, v)] => "\x27" ++ k ++ "\x27: " ++ pyRepr v
    | (k, v) :: kvs => "\x27" ++ k ++ "\x27: " ++ pyRepr v ++ ", " ++ pyReprEntries kvs

/-- Python str(): identity on strings, repr on everything else. -/
def pyStr : PyVal → String
  | .pystr s => s
  | v => pyRepr v

/-- dict.get with a default: raises (AttributeError) on a non-dict. -/
def dictGet (v : PyVal) (key : String) (dflt : PyVal) : Except String PyVal :=
  match v with
  | .pydict kvs => .ok ((kvs.lookup key).getD dflt)
  | _ => .error "AttributeError: object has no attribute get"

/-- _convert_bedrock_stop_reason applied to a dynamic stopReason value:
dict.get raises TypeError on an unhashable key; a hashable non-string is
simply absent from the table and yields the default stop. -/
def convert_bedrock_stop_reason_dyn (stop_reason : PyVal) : Except String String :=
  match stop_reason with
  | .pystr s => .ok (convert_bedrock_stop_reason s)
  | .pylist _ => .error "TypeError: unhashable type list"
  | .pydict _ => .error "TypeError: unhashable type dict"
  | _ => .ok "stop"

/-- Converted usage with the backend values copied verbatim, as the source
copies them without inspecting their type. -/
structure DynUsage where
  prompt_tokens : PyVal
  completion_tokens : PyVal
  total_tokens : PyVal
deriving Repr

def convert_bedrock_usage_to_openai_dyn (usage : PyVal) : Except String DynUsage := do
  let p ← dictGet usage "inputTokens" (.pyint 0)
  let c ← dictGet usage "outputTokens" (.pyint 0)
  let t ← dictGet usage "totalTokens" (.pyint 0)
  .ok { prompt_tokens := p, completion_tokens := c, total_tokens := t }

structure DynToolCall where
  id : PyVal
  name : PyVal
  arguments : String
deriving Repr

/-- The block loop of _convert_bedrock_message_to_openai_choice over dynamic
blocks, accumulating text parts and tool calls in order.  A dict block
dispatches on key presence; a string block raises only when the membership
test `key in block` (a substring test on strings) succeeds and indexing then
fails; a list block raises only when it contains the key as an element; any
non-container block makes the membership test itself raise. -/
def collect_blocks_dyn : List PyVal → Except String (List PyVal × List DynToolCall)
  | [] => .ok ([], [])
  | b :: rest =>
    match b with
    | .pydict kvs =>
        match kvs.lookup "text" with
        | some v => do
            let (ts, tcs) ← collect_blocks_dyn rest
            .ok (v :: ts, tcs)
        | none =>
          match kvs.lookup "toolUse" with
          | some tu => do
              let i ← dictGet tu "toolUseId" (.pystr "")
              let n ← dictGet tu "name" (.pystr "")
              let inp ← dictGet tu "input" (.pydict [])
              let (ts, tcs) ← collect_blocks_dyn rest
              .ok (ts, { id := i, name := n, arguments := pyStr inp } :: tcs)
          | none => collect_blocks_dyn rest
    | .pystr s =>
        if strContains s "text" || strContains s "toolUse" then
          .error "TypeError: string indices must be integers"
        else
          collect_blocks_dyn rest
    | .pylist xs =>
        if xs.any (fun x => match x with | .pystr s => s == "text" || s == "toolUse" | _ => false) then
          .error "TypeError: list indices must be integers"
        else
          collect_blocks_dyn rest
    | .pyint _ => .error "TypeError: argument of type int is not iterable"
    | .pybool _ => .error "TypeError: argument of type bool is not iterable"
    | .pynone => .error "TypeError: argument of type NoneType is not iterable"

/-- str.join over collected text parts: raises unless every part is a str. -/
def asStrAll : List PyVal → Except String (List String)
  | [] => .ok []
  | .pystr s :: rest => do
      let ss ← asStrAll rest
      .ok (s :: ss)
  | _ :: _ => .error "TypeError: sequence item expected str instance"

structure DynMessage where
  role : String
  content : Option String
  tool_calls : Option (List DynToolCall)
deriving Repr

structure DynChoice where
  index : Nat
  message : DynMessage
  finish_reason : String
deriving Repr

/-- _convert_bedrock_message_to_openai_choice over dynamic values.  Iterating
the content value: a list yields its elements; a string yields single
characters which never pass the key-membership tests; a dict yields its keys,
which raise as soon as one passes a membership (substring) test; anything
else is not iterable. -/
def convert_bedrock_message_to_openai_choice_dyn (message : PyVal) (stop_reason : PyVal) :
    Except String (List DynChoice) := do
  let content_blocks ← dictGet message "content" (.pylist [])
  let blocks ←
    match content_blocks with
    | .pylist xs => Except.ok xs
    | .pystr _ => Except.ok []
    | .pydict kvs =>
        if kvs.any (fun kv => strContains kv.1 "text" || strContains kv.1 "toolUse") then
          Except.error "TypeError: string indices must be integers"
        else
          Except.ok []
    | _ => Except.error "TypeError: object is not iterable"
  let (text_parts, tool_calls) ← collect_blocks_dyn blocks
  let content ←
    match text_parts with
    | [] => Except.ok (none : Option String)
    | parts => do
        let ss ← asStrAll parts
        Except.ok (some (String.intercalate "\n" ss))
  let finish ← convert_bedrock_stop_reason_dyn stop_reason
  .ok [{ index := 0
         message := { role := "assistant", content := content,
                      tool_calls := if tool_calls.isEmpty then none else some tool_calls }
         finish_reason := finish }]

/-- A converted client-protocol response (clock-derived id and created are
not modelled). -/
structure DynResponse where
  object : String
  model : String
  choices : List DynChoice
  usage : DynUsage
deriving Repr

/-- The try-block of bedrock_to_openai_response, in source order. -/
def bedrock_to_openai_response_inner (resp : PyVal) (original_model : Option String) :
    Except String DynResponse := do
  let output ← dictGet resp "output" (.pydict [])
  let message ← dictGet output "message" (.pydict [])
  let stop_reason ← dictGet resp "stopReason" (.pystr "end_turn")
  let usage ← dictGet resp "usage" (.pydict [])
  let choices ← convert_bedrock_message_to_openai_choice_dyn message stop_reason
  let openai_usage ← convert_bedrock_usage_to_openai_dyn usage
  .ok { object := "chat.completion", model := modelOrDefault original_model,
        choices := choices, usage := openai_usage }

/-- _create_error_response: one assistant choice carrying the explanatory
message, finish reason stop, zeroed usage. -/
def create_error_response_dyn (error_message : String) (original_model : Option String) :
    DynResponse :=
  { object := "chat.completion"
    model := modelOrDefault original_model
    choices := [{ index := 0
                  message := { role := "assistant",
                               content := some ("Error: " ++ error_message),
                               tool_calls := none }
                  finish_reason := "stop" }]
    usage := { prompt_tokens := .pyint 0, completion_tokens := .pyint 0,
               total_tokens := .pyint 0 } }

/-- bedrock_to_openai_response: the try-block with the except clause made
explicit; a total function, so no exception ever reaches the caller. -/
def bedrock_to_openai_response (resp : PyVal) (original_model : Option String) : DynResponse :=
  match bedrock_to_openai_response_inner resp original_model with
  | .ok r => r
  | .error e => create_error_response_dyn e original_model

/-! ## Spec-modelled comparison definitions -/

/-- Modelled from the spec: the system field collects EVERY system-role
message, in original relative order, as a text block (compare
extract_system_messages, which skips falsy content). -/
def spec_extract_all_system_messages (msgs : List OAMessage) : List SystemEntry :=
  (msgs.filter fun m => m.role == "system").map fun m => { text := m.content.getD (.str "") }

/-- The finish reason carried by a converted chunk, when any. -/
def chunk_finish_reason (c : OAStreamChunk) : Option String :=
  match c.choices with
  | ch :: _ => ch.finish_reason
  | [] => none

/-- Modelled from the spec: the final synthesized response is assembled from
the LAST delta chunk that carries a finish reason, converting its delta into
a full assistant message.  The check demands that the produced response's
choices be exactly that chunk's head choice relabeled as a message; it is
vacuously true when no chunk carries a finish reason. -/
def spec_final_from_last_finish_chunk (chunks : List BrStreamChunk) (model : String) : Bool :=
  let conv := chunks.map fun c => convert_streaming_chunk c (some model)
  match (conv.filter fun c => (chunk_finish_reason c).isSome).getLast? with
  | some fc =>
      match fc.choices with
      | ch :: _ =>
          decide ((handle_streaming_response chunks model).choices
            = [.messageChoice ch.index ch.delta ch.finish_reason])
      | [] => true
  | none => true

/-- Modelled from the spec: the sum of the usage totals of all Metadata
events in the sequence. -/
def spec_metadata_usage_total (chunks : List BrStreamChunk) : Int :=
  (chunks.filterMap fun c =>
    match c with
    | .metadata (some u) => some (u.totalTokens.getD 0)
    | _ => none).sum

def textOf : BrOutBlock → Option String
  | .text s => some s
  | .toolUse _ _ _ => none
  | .otherBlock => none

def isTextBlock : BrOutBlock → Bool
  | .text _ => true
  | .toolUse _ _ _ => false
  | .otherBlock => false

/-! ## Helper lemmas -/

lemma map_getLast? {α β : Type} (f : α → β) :
    ∀ l : List α, (l.map f).getLast? = (l.getLast?).map f
  | [] => rfl
  | [_] => rfl
  | a :: b :: t => by
      rw [List.map_cons, List.map_cons, List.getLast?_cons_cons, List.getLast?_cons_cons,
        ← List.map_cons]
      exact map_getLast? f (b :: t)

/-- The final response is built from the last converted chunk. -/
lemma handle_streaming_response_getLast (chunks : List BrStreamChunk) (model : String)
    (c : BrStreamChunk) (h : chunks.getLast? = some c) :
    handle_streaming_response chunks model
      = finalize_chunk (convert_streaming_chunk c (some model)) := by
  have hm : (chunks.map fun x => convert_streaming_chunk x (some model)).getLast?
      = some (convert_streaming_chunk c (some model)) := by
    rw [map_getLast?, h]
    rfl
  simp [handle_streaming_response, hm]

lemma collectTextParts_eq_filterMap :
    ∀ blocks : List BrOutBlock, collectTextParts blocks = blocks.filterMap textOf
  | [] => rfl
  | .text s :: rest => by
      simp [collectTextParts, List.filterMap_cons, textOf, collectTextParts_eq_filterMap rest]
  | .toolUse i n inp :: rest => by
      simp [collectTextParts, List.filterMap_cons, textOf, collectTextParts_eq_filterMap rest]
  | .otherBlock :: rest => by
      simp [collectTextParts, List.filterMap_cons, textOf, collectTextParts_eq_filterMap rest]

lemma collectTextParts_isEmpty :
    ∀ blocks : List BrOutBlock, (collectTextParts blocks).isEmpty = !blocks.any isTextBlock
  | [] => rfl
  | .text s :: rest => by simp [collectTextParts, List.any_cons, isTextBlock]
  | .toolUse i n inp :: rest => by
      simp only [collectTextParts, List.any_cons, isTextBlock, Bool.false_or]
      exact collectTextParts_isEmpty rest
  | .otherBlock :: rest => by
      simp only [collectTextParts, List.any_cons, isTextBlock, Bool.false_or]
      exact collectTextParts_isEmpty rest

/-! ## Claims -/

/-- C1 (code_bug): the claim, the spec, and the repository's own test
(test_openai_to_bedrock_request_invalid) say that conversion fails with a
validation error when messages is absent or empty, but
openai_to_bedrock_request defaults an absent messages key to the empty list
and returns a backend request with an empty messages array; only an absent
(or falsy) model raises.  Both the absent-messages and empty-messages inputs
convert successfully. -/
theorem C1_conversion_succeeds_without_messages :
    openai_to_bedrock_request default_model_mappings
        { model := some "gpt-4o-mini", messages := none, temperature := none,
          max_tokens := none, top_p := none, stop := none, stream := false,
          tools := none, tool_choice := none }
      = .ok { modelId := "amazon.nova-lite-v1:0", messages := [],
              inferenceConfig := none, system := none, toolConfig := none }
    ∧ openai_to_bedrock_request default_model_mappings
        { model := some "gpt-4o-mini", messages := some [], temperature := none,
          max_tokens := none, top_p := none, stop := none, stream := false,
          tools := none, tool_choice := none }
      = .ok { modelId := "amazon.nova-lite-v1:0", messages := [],
              inferenceConfig := none, system := none, toolConfig := none }
    ∧ openai_to_bedrock_request default_model_mappings
        { model := none, messages := some [], temperature := none,
          max_tokens := none, top_p := none, stop := none, stream := false,
          tools := none, tool_choice := none }
      = .error "Missing model in OpenAI request" := by
  exact ⟨rfl, rfl, rfl⟩

/-- C2 counterexample: for the event sequence [MessageStop end_turn,
Metadata usage] the last delta chunk carrying a finish reason is the
MessageStop chunk, but the code builds the final response from the very last
chunk (the Metadata one), whose choices are empty, so no assistant message
with that finish reason appears. -/
theorem C2_counterexample_final_not_from_finish_chunk :
    spec_final_from_last_finish_chunk
        [ .message_stop (some "end_turn"),
          .metadata (some { inputTokens := some 10, outputTokens := some 5,
                            totalTokens := some 15 }) ]
        "gpt-4o-mini" = false := by
  decide

/-- C2 (corrected): the final synthesized response is assembled from the
LAST converted chunk, whatever its kind and whether or not it carries a
finish reason; its head choice's delta (when any) is relabeled as a message,
keeping that chunk's finish reason (possibly null). -/
theorem C2_final_from_last_chunk (chunks : List BrStreamChunk) (model : String)
    (c : BrStreamChunk) (h : chunks.getLast? = some c) :
    handle_streaming_response chunks model
      = finalize_chunk (convert_streaming_chunk c (some model)) :=
  handle_streaming_response_getLast chunks model c h

theorem C2_witness :
    ([BrStreamChunk.message_stop (some "end_turn"),
      .metadata (some { inputTokens := some 10, outputTokens := some 5,
                        totalTokens := some 15 })].getLast?
        = some (.metadata (some { inputTokens := some 10, outputTokens := some 5,
                                  totalTokens := some 15 })))
    ∧ handle_streaming_response
        [ .message_stop (some "end_turn"),
          .metadata (some { inputTokens := some 10, outputTokens := some 5,
                            totalTokens := some 15 }) ] "gpt-4o-mini"
      = finalize_chunk (convert_streaming_chunk
          (.metadata (some { inputTokens := some 10, outputTokens := some 5,
                             totalTokens := some 15 })) (some "gpt-4o-mini")) :=
  ⟨rfl, C2_final_from_last_chunk _ _ _ rfl⟩

/-- C3 counterexample: for two Metadata events with totals 3 and 9 the spec
demands a final usage total of 12, but the response carries only the last
chunk's converted usage (total 9). -/
theorem C3_counterexample_usage_not_summed :
    ((handle_streaming_response
        [ .metadata (some { inputTokens := some 1, outputTokens := some 2,
                            totalTokens := some 3 }),
          .metadata (some { inputTokens := some 4, outputTokens := some 5,
                            totalTokens := some 9 }) ] "m").usage.map OAUsage.total_tokens)
      ≠ some (spec_metadata_usage_total
          [ .metadata (some { inputTokens := some 1, outputTokens := some 2,
                              totalTokens := some 3 }),
            .metadata (some { inputTokens := some 4, outputTokens := some 5,
                              totalTokens := some 9 }) ]) := by
  decide

/-- C3 (corrected): exactly one final response is produced (the aggregation
is a total function); its usage is the usage field of the LAST converted
chunk (absent unless that chunk is a Metadata event with truthy usage), while
the accumulated sum of all Metadata usage totals feeds only the API-call log
line (streamed_total_tokens), never the response. -/
theorem C3_usage_from_last_chunk_only (chunks : List BrStreamChunk) (model : String)
    (c : BrStreamChunk) (h : chunks.getLast? = some c) :
    (handle_streaming_response chunks model).usage
        = (convert_streaming_chunk c (some model)).usage
    ∧ streamed_total_tokens chunks = spec_metadata_usage_total chunks := by
  constructor
  · rw [handle_streaming_response_getLast chunks model c h]
    rfl
  · clear h
    induction chunks with
    | nil => rfl
    | cons hd tl ih =>
        cases hd with
        | metadata u =>
            cases u with
            | some uu =>
                simp [streamed_total_tokens, spec_metadata_usage_total,
                  List.filterMap_cons, ih]
            | none =>
                simp [streamed_total_tokens, spec_metadata_usage_total,
                  List.filterMap_cons, ih]
        | message_start =>
            simp [streamed_total_tokens, spec_metadata_usage_total, List.filterMap_cons, ih]
        | content_block_start =>
            simp [streamed_total_tokens, spec_metadata_usage_total, List.filterMap_cons, ih]
        | content_block_delta t =>
            simp [streamed_total_tokens, spec_metadata_usage_total, List.filterMap_cons, ih]
        | content_block_stop =>
            simp [streamed_total_tokens, spec_metadata_usage_total, List.filterMap_cons, ih]
        | message_stop sr =>
            simp [streamed_total_tokens, spec_metadata_usage_total, List.filterMap_cons, ih]

theorem C3_witness :
    ([BrStreamChunk.metadata (some { inputTokens := some 1, outputTokens := some 2,
                                     totalTokens := some 3 })].getLast?
        = some (.metadata (some { inputTokens := some 1, outputTokens := some 2,
                                  totalTokens := some 3 })))
    ∧ ((handle_streaming_response
          [ .metadata (some { inputTokens := some 1, outputTokens := some 2,
                              totalTokens := some 3 }) ] "m").usage
        = (convert_streaming_chunk
            (.metadata (some { inputTokens := some 1, outputTokens := some 2,
                               totalTokens := some 3 })) (some "m")).usage
      ∧ streamed_total_tokens
          [ .metadata (some { inputTokens := some 1, outputTokens := some 2,
                              totalTokens := some 3 }) ]
        = spec_metadata_usage_total
            [ .metadata (some { inputTokens := some 1, outputTokens := some 2,
                                totalTokens := some 3 }) ]) :=
  ⟨rfl, C3_usage_from_last_chunk_only _ "m" _ rfl⟩

/-- C4 counterexample: the usage conversion copies the backend totalTokens
verbatim, so a backend usage object whose own total is not the sum (input 1,
output 2, total 5) converts to a client usage violating
total = prompt + completion. -/
theorem C4_counterexample_total_copied_verbatim :
    (convert_bedrock_usage_to_openai
        { inputTokens := some 1, outputTokens := some 2, totalTokens := some 5 }).total_tokens
      ≠ (convert_bedrock_usage_to_openai
          { inputTokens := some 1, outputTokens := some 2, totalTokens := some 5 }).prompt_tokens
        + (convert_bedrock_usage_to_openai
            { inputTokens := some 1, outputTokens := some 2, totalTokens := some 5 }).completion_tokens := by
  decide

/-- C4 (corrected): the fallback responses (reverse-conversion error response
and empty-stream fallback) do satisfy total = prompt + completion (all
zeros); the backend-usage conversion copies all three fields with zero
defaults, so the invariant holds exactly when the backend's own totalTokens
already equals inputTokens + outputTokens. -/
theorem C4_usage_invariant_when_backend_consistent (u : BrUsage) (msg : String)
    (m : Option String) (model2 : String)
    (h : u.totalTokens.getD 0 = u.inputTokens.getD 0 + u.outputTokens.getD 0) :
    (convert_bedrock_usage_to_openai u).total_tokens
        = (convert_bedrock_usage_to_openai u).prompt_tokens
          + (convert_bedrock_usage_to_openai u).completion_tokens
    ∧ (create_error_response_dyn msg m).usage
        = { prompt_tokens := .pyint 0, completion_tokens := .pyint 0, total_tokens := .pyint 0 }
    ∧ (fallback_stream_response model2).usage
        = some { prompt_tokens := 0, completion_tokens := 0, total_tokens := 0 } := by
  exact ⟨h, rfl, rfl⟩

theorem C4_witness :
    ((({ inputTokens := some 1, outputTokens := some 2, totalTokens := some 3 } :
        BrUsage).totalTokens.getD 0)
      = (({ inputTokens := some 1, outputTokens := some 2, totalTokens := some 3 } :
          BrUsage).inputTokens.getD 0)
        + (({ inputTokens := some 1, outputTokens := some 2, totalTokens := some 3 } :
            BrUsage).outputTokens.getD 0))
    ∧ (convert_bedrock_usage_to_openai
        { inputTokens := some 1, outputTokens := some 2, totalTokens := some 3 }).total_tokens
      = (convert_bedrock_usage_to_openai
          { inputTokens := some 1, outputTokens := some 2, totalTokens := some 3 }).prompt_tokens
        + (convert_bedrock_usage_to_openai
            { inputTokens := some 1, outputTokens := some 2, totalTokens := some 3 }).completion_tokens :=
  ⟨by decide,
   (C4_usage_invariant_when_backend_consistent _ "boom" none "m" (by decide)).1⟩

/-- C5 (confirmed): the reverse conversion is a total function of its input
(the try/except of the source is an explicit catch here, so no exception
reaches the caller); on the success of the try-block the result is returned
unchanged, and on any internal failure the result is exactly the fallback: a
single assistant choice carrying an explanatory error message, finish reason
stop, and all-zero usage. -/
theorem C5_reverse_conversion_never_fails (resp : PyVal) (m : Option String) :
    (∀ r, bedrock_to_openai_response_inner resp m = .ok r →
        bedrock_to_openai_response resp m = r)
    ∧ (∀ e, bedrock_to_openai_response_inner resp m = .error e →
        bedrock_to_openai_response resp m
          = { object := "chat.completion"
              model := modelOrDefault m
              choices := [{ index := 0
                            message := { role := "assistant",
                                         content := some ("Error: " ++ e),
                                         tool_calls := none }
                            finish_reason := "stop" }]
              usage := { prompt_tokens := .pyint 0, completion_tokens := .pyint 0,
                         total_tokens := .pyint 0 } }) := by
  constructor
  · intro r hr
    simp [bedrock_to_openai_response, hr]
  · intro e he
    simp [bedrock_to_openai_response, he, create_error_response_dyn]

theorem C5_witness :
    bedrock_to_openai_response_inner (.pydict [("output", .pystr "oops")]) none
      = .error "AttributeError: object has no attribute get"
    ∧ bedrock_to_openai_response (.pydict [("output", .pystr "oops")]) none
      = { object := "chat.completion"
          model := modelOrDefault none
          choices := [{ index := 0
                        message := { role := "assistant",
                                     content := some ("Error: " ++
                                       "AttributeError: object has no attribute get"),
                                     tool_calls := none }
                        finish_reason := "stop" }]
          usage := { prompt_tokens := .pyint 0, completion_tokens := .pyint 0,
                     total_tokens := .pyint 0 } } :=
  ⟨rfl, (C5_reverse_conversion_never_fails (.pydict [("output", .pystr "oops")]) none).2 _ rfl⟩

/-- C6 counterexample: a backend throttling error that carries HTTP status
400 from the backend response is translated with status 400, not 429,
because _handle_bedrock_error overrides the table's status with the carried
one; the claim's fixed 429 is therefore false as stated. -/
theorem C6_counterexample_status_override :
    handle_bedrock_error (converse_client_error "ThrottlingException" "Too many requests" 400)
        = { statusCode := 400, errorType := "rate_limit_error", message := "Too many requests" }
    ∧ (handle_bedrock_error
        (converse_client_error "ThrottlingException" "Too many requests" 400)).statusCode
      ≠ 429 := by
  exact ⟨rfl, by decide⟩

/-- C6 (corrected): translation is total and the client error TYPE follows
the documented table (throttling to rate_limit_error, any unmapped backend
code to server_error), but the HTTP STATUS is the one carried from the
backend response whenever it is present and non-zero; the table's status
(429 for throttling) applies only when the error carries none. -/
theorem C6_error_translation_with_status_override (msg : String) (status : Int)
    (h : status ≠ 0) :
    handle_bedrock_error (converse_client_error "ThrottlingException" msg status)
        = { statusCode := status, errorType := "rate_limit_error", message := msg }
    ∧ (∀ code : String, bedrock_error_type_mapping.lookup code = none →
        handle_bedrock_error (converse_client_error code msg status)
          = { statusCode := status, errorType := "server_error", message := msg })
    ∧ handle_bedrock_error
        { message := msg, status_code := none, error_type := some "rate_limit_error" }
        = { statusCode := 429, errorType := "rate_limit_error", message := msg } := by
  have hb : (status == 0) = false := by
    simp [beq_iff_eq, h]
  refine ⟨?_, ?_, rfl⟩
  · simp [handle_bedrock_error, converse_client_error, bedrock_error_type_mapping,
      handler_error_mapping, List.lookup, hb]
  · intro code hc
    simp only [converse_client_error, hc, Option.getD_none]
    simp [handle_bedrock_error, handler_error_mapping, hb]
    decide

theorem C6_witness :
    ((400 : Int) ≠ 0)
    ∧ handle_bedrock_error (converse_client_error "ThrottlingException" "m" 400)
        = { statusCode := 400, errorType := "rate_limit_error", message := "m" }
    ∧ handle_bedrock_error (converse_client_error "TeapotException" "m" 400)
        = { statusCode := 400, errorType := "server_error", message := "m" } :=
  ⟨by decide,
   (C6_error_translation_with_status_override "m" 400 (by decide)).1,
   (C6_error_translation_with_status_override "m" 400 (by decide)).2.1 "TeapotException" rfl⟩

/-- C7 counterexample: a system-role message with empty content is removed
from the message list but NOT appended to the system field (the source keeps
only truthy content), so the spec-modelled collect-all extraction differs. -/
theorem C7_counterexample_empty_system_content :
    extract_system_messages [{ role := "system", content := some (.str ""), tool_calls := [] }]
      ≠ spec_extract_all_system_messages
          [{ role := "system", content := some (.str ""), tool_calls := [] }] := by
  decide

/-- C7 (corrected): every system-role message WITH truthy (non-empty)
content is appended, in original relative order, as a text block to the
system field — one whose content is empty or missing is silently dropped —
and the remaining backend messages contain no system-role entries. -/
theorem C7_system_partition (msgs : List OAMessage) :
    extract_system_messages msgs
        = ((msgs.filter fun m => m.role == "system" && contentTruthy m.content).map
            fun m => { text := m.content.getD (.str "") })
    ∧ (convert_messages_openai_to_bedrock msgs).all (fun bm => bm.role != "system") = true := by
  induction msgs with
  | nil => exact ⟨rfl, rfl⟩
  | cons m rest ih =>
      constructor
      · by_cases hsys : (m.role == "system" && contentTruthy m.content) = true
        · simp [extract_system_messages, hsys, List.filter_cons, ih.1]
        · simp [extract_system_messages, hsys, List.filter_cons, ih.1]
      · by_cases h1 : m.role == "system"
        · simp [convert_messages_openai_to_bedrock, h1, ih.2]
        · by_cases h2 : m.role == "user"
          · simp [convert_messages_openai_to_bedrock, h1, h2, List.all_cons, ih.2]
          · by_cases h3 : m.role == "assistant"
            · simp [convert_messages_openai_to_bedrock, h1, h2, h3, List.all_cons, ih.2]
            · simp [convert_messages_openai_to_bedrock, h1, h2, h3, ih.2]

/-- C8 counterexample: AuthManager.__init__ hardcodes require_auth = False,
so a request with NO credentials at all authenticates as anonymous and the
pipeline proceeds all the way to the backend invocation instead of
responding 401. -/
theorem C8_counterexample_auth_disabled_by_default :
    isBackendCall
      (handle_chat_completion auth_manager_default_require_auth (fun _ => none) 0
        default_model_mappings
        { auth := { authorizationHeader := none, apiKeyHeader := none },
          body := some (some
            { model := some "gpt-4o-mini"
              messages := some [{ role := "user", content := some (.str "Hello"),
                                  tool_calls := [] }]
              temperature := none, max_tokens := none, top_p := none,
              stop := none, stream := false, tools := none, tool_choice := none }) })
      = true := by
  decide

/-- C8 (corrected): WHEN authentication is required (require_auth = True),
every inbound call whose credentials are missing or invalid — i.e. whose
authentication result is unauthenticated — short-circuits into the
401 authentication_error response produced from create_auth_error, before
the body is even parsed and before any backend call. -/
theorem C8_unauthenticated_requests_get_401 (jwtDecode : String → Option JwtClaims)
    (now : Int) (mappings : List (String × String)) (ev : ChatEvent)
    (h : (authenticate_request true jwtDecode now ev.auth).authenticated = false) :
    handle_chat_completion true jwtDecode now mappings ev
      = .errorResponse 401 "authentication_error"
          ((authenticate_request true jwtDecode now ev.auth).error_message.getD
            "Authentication required") := by
  simp [handle_chat_completion, h, create_auth_error]

theorem C8_witness :
    ((authenticate_request true (fun _ => none) 0
        { authorizationHeader := none, apiKeyHeader := none }).authenticated = false)
    ∧ handle_chat_completion true (fun _ => none) 0 default_model_mappings
        { auth := { authorizationHeader := none, apiKeyHeader := none }, body := none }
      = .errorResponse 401 "authentication_error" "No authentication credentials provided" := by
  refine ⟨rfl, ?_⟩
  exact C8_unauthenticated_requests_get_401 (fun _ => none) 0 default_model_mappings
    { auth := { authorizationHeader := none, apiKeyHeader := none }, body := none } rfl

/-- C9 (confirmed): model-name resolution is a pure table lookup that
returns any name absent from the table unchanged; being a total function it
never fails on any input name. -/
theorem C9_unmapped_model_name_identity (mappings : List (String × String)) (name : String)
    (h : mappings.lookup name = none) :
    convert_model_name mappings name = name := by
  unfold convert_model_name
  rw [h]

theorem C9_witness :
    (default_model_mappings.lookup "claude-3-sonnet" = none)
    ∧ convert_model_name default_model_mappings "claude-3-sonnet" = "claude-3-sonnet" :=
  ⟨rfl, C9_unmapped_model_name_identity default_model_mappings "claude-3-sonnet" rfl⟩

/-- C10 (confirmed): the converted choice's assistant content is None (not
the empty string) exactly when the backend block list has no text blocks,
and otherwise it is all text-block strings joined by single newlines, in
block order. -/
theorem C10_choice_content_from_text_blocks (blocks : List BrOutBlock) (stop_reason : String) :
    (convert_bedrock_message_to_openai_choice blocks stop_reason).map
        (fun ch => ch.message.content)
      = [if blocks.any isTextBlock then
            some (String.intercalate "\n" (blocks.filterMap textOf))
          else none] := by
  unfold convert_bedrock_message_to_openai_choice
  simp only [List.map_cons, List.map_nil]
  rw [collectTextParts_isEmpty, collectTextParts_eq_filterMap]
  cases hA : blocks.any isTextBlock <;> simp [hA]

end BedrockProxy
